import Mathlib

/-!
Verification of the `ModelParameters` contract from
`src/functionapproximators/ModelParameters.hpp` of the dmpbbo repository.

The header declares the abstract base class `ModelParameters : public Parameterizable`
with pure-virtual members `clone`, `toString`, `getExpectedInputDim`,
`toModelParametersUnified`, a non-virtual default `saveGridData` whose whole body is
`{ return true; }`, a friend `operator<<` that writes `toString()` to the stream, and a
`serialize` member whose whole body serializes the `Parameterizable` base-object NVP.
Concrete subclasses and `Parameterizable.hpp` are not part of the supplied sources, so
their behaviour, where a claim needs it, is modelled from the specification and marked
as such in the doc comment of the corresponding definition.
-/

namespace DmpBbo

/-- Modelled from the spec: `ModelParametersUnified` (declared only as a forward
reference in the header) is "a normalized cross-model form"; its content is irrelevant
to the claims, so it is abstracted as a list of integer parameters. -/
structure ModelParametersUnified where
  params : List Int
deriving DecidableEq

/-- Modelled from the spec: a concrete, valid `ModelParameters` instance. The header
declares no data members of its own; concrete subclasses (not under src/) "hold the
actual numeric arrays (weights, centers, widths, etc.)", abstracted here as
`paramState`. `parameterizableState` abstracts the state of the `Parameterizable` base
class (its header is also not under src/). `expectedInputDim` is the fixed input
dimensionality the parameter set was fit for (a dimensionality, hence a natural
number, per the spec "integer ≥ 0", constant for the lifetime of an instance).
`hasUnified` records whether the subclass defines a unified-representation
projection. -/
structure ModelParameters where
  paramState : List Int
  parameterizableState : List Int
  expectedInputDim : Nat
  hasUnified : Bool
deriving DecidableEq

/-- The filesystem visible to `saveGridData`, as a list of (path, content) files. -/
structure FileSystem where
  files : List (String × String)
deriving DecidableEq

/-- Embedding of the default (base-class) `ModelParameters::saveGridData`. The whole
body in the source is `{ return true; }`: it reads none of its arguments, performs no
writes and no response evaluations. The result triple is (returned bool, filesystem
after the call, number of response evaluations performed during the call); `Eigen`
vector entries are abstracted as integers since the body never reads them. -/
def ModelParameters.saveGridData (_p : ModelParameters) (_min _max : List Int)
    (_n_samples_per_dim : List Int) (_directory : String) (_overwrite : Bool)
    (fs : FileSystem) : Bool × FileSystem × Nat :=
  (true, fs, 0)

/-- Modelled from the spec: `toString` is pure virtual in the header; subclasses
produce "a deterministic, human-readable representation of current parameter values".
Modelled as a deterministic rendering of the abstracted state. -/
def ModelParameters.toString (p : ModelParameters) : String :=
  (String.append (ToString.toString p.expectedInputDim) (ToString.toString p.paramState))

/-- Embedding of the friend `operator<<(output, model_parameters)` from the header:
`output << model_parameters.toString(); return output;`. The stream is modelled as
the string written to it so far; the function returns the same sink, extended. -/
def operatorOutput (output : String) (model_parameters : ModelParameters) : String :=
  output ++ model_parameters.toString

/-- Embedding of `getExpectedInputDim`, pure virtual in the header with C++ return
type `int`; modelled from the spec as the (fixed) dimensionality field, returned as
an integer. It reads only the instance, so it has no side effects by construction. -/
def ModelParameters.getExpectedInputDim (p : ModelParameters) : Int :=
  (p.expectedInputDim : Int)

/-- Modelled from the spec: `toModelParametersUnified` is pure virtual in the header;
the documented contract is "Unified model parameter representation (NULL if not
implemented for a particular subclass)". A subclass that defines the projection
returns it; one that does not returns `none`. The function is total: no exception. -/
def ModelParameters.toModelParametersUnified (p : ModelParameters) :
    Option ModelParametersUnified :=
  if p.hasUnified then some ⟨p.paramState⟩ else none

/-- One name-value pair written to a boost serialization archive. -/
inductive ArchiveEntry where
  | nvp (nm : String) (value : List Int)
deriving DecidableEq

/-- Embedding of `ModelParameters::serialize(ar, version)` from the header. Its whole
body is `ar & BOOST_SERIALIZATION_BASE_OBJECT_NVP(Parameterizable);`: it appends the
`Parameterizable` base-object NVP to the archive, reads no field of `ModelParameters`
itself (the class declares none), and never reads `version` (consistent with the
`BOOST_CLASS_IMPLEMENTATION(..., object_serializable)` directive, which suppresses
class-version information in archives). -/
def ModelParameters.serialize (p : ModelParameters) (ar : List ArchiveEntry)
    (_version : Nat) : List ArchiveEntry :=
  ar ++ [ArchiveEntry.nvp ("Parameterizable") p.parameterizableState]

/-- Modelled from the spec: "The contract requires that serialization round-trip a
concrete subclass's full state, including the base contract's trivial (empty)
portion." Concrete subclasses are not under src/; their archive is modelled as the
base-class portion written by `ModelParameters.serialize` followed by NVPs for the
abstracted subclass state. -/
def serializeConcrete (p : ModelParameters) (version : Nat) : List ArchiveEntry :=
  p.serialize [] version ++
    [ArchiveEntry.nvp ("subclass_state") p.paramState,
     ArchiveEntry.nvp ("expected_input_dim") [(p.expectedInputDim : Int)],
     ArchiveEntry.nvp ("has_unified") [if p.hasUnified then 1 else 0]]

/-- Modelled from the spec: the inverse load routine of `serializeConcrete`. It
accepts exactly the archive shape written by `serializeConcrete` and rejects
(`none`) anything else, including out-of-range field values. -/
def deserializeConcrete (ar : List ArchiveEntry) : Option ModelParameters :=
  match ar with
  | [ArchiveEntry.nvp ("Parameterizable") base,
     ArchiveEntry.nvp ("subclass_state") st,
     ArchiveEntry.nvp ("expected_input_dim") [d],
     ArchiveEntry.nvp ("has_unified") [u]] =>
    if 0 ≤ d ∧ (u = 0 ∨ u = 1) then
      some ⟨st, base, d.toNat, u == 1⟩
    else none
  | _ => none

/-- A heap of parameter objects: an address is an index into the list. Modelled from
the spec for `clone()`, which is pure virtual in the header: "Return a pointer to a
deep copy of the ModelParameters object". -/
abbrev Heap := List ModelParameters

/-- Read the object at an address (a default object for a dangling address). -/
def Heap.read (h : Heap) (a : Nat) : ModelParameters :=
  List.getD h a ⟨[], [], 0, false⟩

/-- Modelled from the spec: `clone` allocates a fresh address holding a copy of the
value at `a` and returns the new heap together with the fresh address. -/
def Heap.clone (h : Heap) (a : Nat) : Heap × Nat :=
  (h ++ [h.read a], List.length h)

/-- Overwrite the object stored at an address (mutation through a pointer). -/
def Heap.mutate (h : Heap) (a : Nat) (v : ModelParameters) : Heap :=
  List.set h a v

/-! ### Helper lemmas (shared) -/

/-- Reading the freshly cloned address yields the exact value stored at the source
address: `clone` copies the whole value. -/
theorem read_clone (h : Heap) (a : Nat) :
    Heap.read (h.clone a).1 (h.clone a).2 = Heap.read h a := by
  show List.getD (h ++ [h.read a]) (List.length h) _ = _
  rw [List.getD_append_right _ _ _ _ (Nat.le_refl _), Nat.sub_self]
  rfl

/-- Reading an address other than the one written is unaffected by the write. -/
theorem read_mutate_ne (h : Heap) (a b : Nat) (v : ModelParameters) (hab : a ≠ b) :
    Heap.read (h.mutate a v) b = Heap.read h b := by
  unfold Heap.read Heap.mutate
  rw [List.getD_eq_getD_get?, List.getD_eq_getD_get?, List.get?_eq_getElem?,
    List.get?_eq_getElem?, List.getElem?_set_ne hab]

/-- Reading inside the original segment of a heap extended by one object. -/
theorem read_append_lt (h : Heap) (x : ModelParameters) (a : Nat)
    (ha : a < List.length h) : Heap.read (h ++ [x]) a = Heap.read h a := by
  unfold Heap.read
  rw [List.getD_append _ _ _ _ ha]

/-- Deserializing the serialization of any instance restores the instance exactly. -/
theorem deserialize_serialize (p : ModelParameters) (v : Nat) :
    deserializeConcrete (serializeConcrete p v) = some p := by
  obtain ⟨st, base, d, u⟩ := p
  simp only [serializeConcrete, ModelParameters.serialize, deserializeConcrete,
    List.nil_append, List.cons_append, List.append_nil]
  rw [if_pos]
  · cases u <;> simp
  · refine ⟨Int.natCast_nonneg d, ?_⟩
    cases u <;> simp

/-! ### Claim theorems -/

/-- Claim C2: the base-class (default) implementation of `saveGridData` is a no-op:
for every combination of min, max, samplesPerDim, directory and overwrite arguments it
writes nothing (the filesystem is returned unchanged, and no response is evaluated)
and returns `true`. -/
theorem saveGridData_default_noop (p : ModelParameters) (mn mx ns : List Int)
    (dir : String) (ow : Bool) (fs : FileSystem) :
    p.saveGridData mn mx ns dir ow fs = (true, fs, 0) := rfl

/-- Claim C9: the default `saveGridData` leaves all program state and the filesystem
unchanged and still returns `true` in every one of its edge cases — whenever the
`min`, the `max` or the `samplesPerDim` length disagrees with
`getExpectedInputDim()`, or `overwrite = false` while the target directory already
contains a file — because it performs no validation of any argument. -/
theorem saveGridData_default_frame (p : ModelParameters) (mn mx ns : List Int)
    (dir fname content : String) (fs : FileSystem)
    (hedge : (mn.length : Int) ≠ p.getExpectedInputDim ∨
      (mx.length : Int) ≠ p.getExpectedInputDim ∨
      (ns.length : Int) ≠ p.getExpectedInputDim ∨
      (dir ++ fname, content) ∈ fs.files) :
    p.saveGridData mn mx ns dir false fs = (true, fs, 0) := rfl

/-- Witness for C9 at a concrete instance exercising the overwrite-conflict edge case
alone: dimension 1, all argument lengths correct (1), `overwrite = false`, and a file
already present under the target directory — the call still returns `true` and leaves
the filesystem unchanged. -/
theorem saveGridData_default_frame_witness :
    ((("d/") ++ ("f"), ("old")) ∈ (⟨[(("d/f"), ("old"))]⟩ : FileSystem).files) ∧
    (ModelParameters.saveGridData ⟨[5], [], 1, false⟩ [0] [1] [3] ("d/") false
      ⟨[(("d/f"), ("old"))]⟩ = (true, ⟨[(("d/f"), ("old"))]⟩, 0)) :=
  ⟨by simp [String.append],
    saveGridData_default_frame ⟨[5], [], 1, false⟩ [0] [1] [3] ("d/") ("f") ("old")
      ⟨[(("d/f"), ("old"))]⟩ (Or.inr (Or.inr (Or.inr (by simp [String.append]))))⟩

/-- Claim C1 counterexample: the claim says a `saveGridData` call whose `min` length
differs from `getExpectedInputDim()` is reported to the caller as a failure result.
On the base-class implementation under src/ this is false: at the concrete instance
below, `getExpectedInputDim()` is 2, `min` has length 1, yet the call returns `true`
(success), not a failure. -/
theorem saveGridData_mismatch_counterexample :
    ((ModelParameters.getExpectedInputDim ⟨[3, 4], [7], 2, false⟩) = 2) ∧
    (([0] : List Int).length = 1) ∧
    ((ModelParameters.saveGridData ⟨[3, 4], [7], 2, false⟩ [0] [1, 1] [3, 3] ("d/")
      false ⟨[]⟩).1 = true) :=
  ⟨rfl, rfl, rfl⟩

/-- Claim C1 amended: the base-class implementation performs no precondition check at
all: a call whose `min`, `max` or `samplesPerDim` length differs from
`getExpectedInputDim()` is silently ignored — it returns `true` (success, not a
failure result) and produces no output files (the filesystem is unchanged and no
response is evaluated). -/
theorem saveGridData_mismatch_silently_ignored (p : ModelParameters)
    (mn mx ns : List Int) (dir : String) (ow : Bool) (fs : FileSystem)
    (hmismatch : (mn.length : Int) ≠ p.getExpectedInputDim ∨
      (mx.length : Int) ≠ p.getExpectedInputDim ∨
      (ns.length : Int) ≠ p.getExpectedInputDim) :
    p.saveGridData mn mx ns dir ow fs = (true, fs, 0) := rfl

/-- Witness for the amended C1 at a concrete instance with a `samplesPerDim`-only
mismatch: dimension 2, `min` and `max` of the correct length 2, `samplesPerDim` of
length 1. -/
theorem saveGridData_mismatch_silently_ignored_witness :
    ((([3] : List Int).length : Int)
      ≠ (ModelParameters.getExpectedInputDim ⟨[3, 4], [7], 2, false⟩)) ∧
    (ModelParameters.saveGridData ⟨[3, 4], [7], 2, false⟩ [0, 0] [1, 1] [3] ("d/")
      false ⟨[]⟩ = (true, ⟨[]⟩, 0)) :=
  ⟨by decide,
    saveGridData_mismatch_silently_ignored ⟨[3, 4], [7], 2, false⟩ [0, 0] [1, 1] [3]
      ("d/") false ⟨[]⟩ (Or.inr (Or.inr (by decide)))⟩

/-- Claim C3 counterexample: the claim says that with `getExpectedInputDim() = 2`,
`min=[0,0]`, `max=[1,1]`, `samplesPerDim=[3,3]` on an empty target directory,
`saveGridData` evaluates the underlying response at exactly 9 grid points. On the
implementation under src/ (the base-class default) this is false: the call below
returns `true` but performs 0 response evaluations, and 0 ≠ 9. -/
theorem saveGridData_nine_points_counterexample :
    ((ModelParameters.getExpectedInputDim ⟨[1], [], 2, true⟩) = 2) ∧
    (ModelParameters.saveGridData ⟨[1], [], 2, true⟩ [0, 0] [1, 1] [3, 3] ("d/")
      false ⟨[]⟩ = (true, ⟨[]⟩, 0)) ∧
    ((0 : Nat) ≠ 9) :=
  ⟨rfl, rfl, by decide⟩

/-- Claim C3 amended: for a parameter object with `getExpectedInputDim() = 2`,
calling the (base-class default) `saveGridData` with `min=[0,0]`, `max=[1,1]`,
`samplesPerDim=[3,3]` on an empty target directory returns `true`, but evaluates the
underlying response at exactly 0 grid points, not 9: the default implementation is a
no-op, and grid evaluation is left to subclasses that override it (none are under
src/). -/
theorem saveGridData_grid_default (p : ModelParameters) (dir : String)
    (h : p.getExpectedInputDim = 2) :
    p.saveGridData [0, 0] [1, 1] [3, 3] dir false ⟨[]⟩ = (true, ⟨[]⟩, 0) := rfl

/-- Witness for the amended C3 at a concrete instance of dimension 2. -/
theorem saveGridData_grid_default_witness :
    ((ModelParameters.getExpectedInputDim ⟨[1], [], 2, true⟩) = 2) ∧
    (ModelParameters.saveGridData ⟨[1], [], 2, true⟩ [0, 0] [1, 1] [3, 3] ("d/")
      false ⟨[]⟩ = (true, ⟨[]⟩, 0)) :=
  ⟨rfl, saveGridData_grid_default ⟨[1], [], 2, true⟩ ("d/") rfl⟩

/-- Claim C4: for every instance whose concrete subclass defines no
unified-representation projection, `toModelParametersUnified()` returns an absent
result (`none`, the model of a NULL pointer) — never a placeholder object, and, the
function being total, never an exception. -/
theorem toModelParametersUnified_none (p : ModelParameters)
    (h : p.hasUnified = false) : p.toModelParametersUnified = none := by
  simp [ModelParameters.toModelParametersUnified, h]

/-- Witness for C4 at a concrete instance with no projection defined. -/
theorem toModelParametersUnified_none_witness :
    ((⟨[1, 2], [], 3, false⟩ : ModelParameters).hasUnified = false) ∧
    ((⟨[1, 2], [], 3, false⟩ : ModelParameters).toModelParametersUnified = none) :=
  ⟨rfl, toModelParametersUnified_none ⟨[1, 2], [], 3, false⟩ rfl⟩

/-- Claim C7: for every instance `p` and every output sink `s`, the stream-rendering
operation (`operator<<`) appends exactly the string `p.toString()` to `s` and nothing
else, regardless of `p`'s concrete state, and returns the same sink so extended. -/
theorem operatorOutput_appends_toString (s : String) (p : ModelParameters) :
    operatorOutput s p = s ++ p.toString := rfl

/-- Claim C5: for every valid instance `p`, deserializing the serialization of `p`
restores the full state of `p` exactly (subclass portion and the base contract's
portion alike), and in particular the restored object's `toString` equals
`p.toString`. -/
theorem serialize_roundtrip (p : ModelParameters) (v : Nat) :
    deserializeConcrete (serializeConcrete p v) = some p ∧
    Option.map ModelParameters.toString (deserializeConcrete (serializeConcrete p v))
      = some p.toString := by
  refine ⟨deserialize_serialize p v, ?_⟩
  rw [deserialize_serialize p v]
  rfl

/-- Claim C6: for every heap and every valid address `a` in it, `clone` yields a copy
`q` at a fresh address such that `q.toString()` equals the original's `toString()`,
the fresh address is not an alias of `a`, and no mutable state is shared: writing any
value through the cloned address leaves the object at `a` exactly as it was, and
writing any value through `a` leaves the cloned object exactly as it was. -/
theorem clone_deep_copy (h : Heap) (a : Nat) (ha : a < List.length h) :
    ((Heap.read (h.clone a).1 (h.clone a).2).toString = (Heap.read h a).toString) ∧
    ((h.clone a).2 ≠ a) ∧
    (∀ v, Heap.read (Heap.mutate (h.clone a).1 (h.clone a).2 v) a = Heap.read h a) ∧
    (∀ v, Heap.read (Heap.mutate (h.clone a).1 a v) (h.clone a).2
      = Heap.read h a) := by
  refine ⟨by rw [read_clone], Nat.ne_of_gt ha, fun v => ?_, fun v => ?_⟩
  · show Heap.read (Heap.mutate (h ++ [h.read a]) (List.length h) v) a = Heap.read h a
    rw [read_mutate_ne _ _ _ _ (Nat.ne_of_gt ha), read_append_lt _ _ _ ha]
  · show Heap.read (Heap.mutate (h ++ [h.read a]) a v) (List.length h) = Heap.read h a
    rw [read_mutate_ne _ _ _ _ (Nat.ne_of_lt ha)]
    exact read_clone h a

/-- Witness for C6 on a concrete two-object heap at address 0. -/
theorem clone_deep_copy_witness :
    ((0 : Nat) < List.length ([⟨[9], [], 1, false⟩, ⟨[2], [], 2, true⟩] : Heap)) ∧
    (∀ v, Heap.read
        (Heap.mutate (Heap.clone [⟨[9], [], 1, false⟩, ⟨[2], [], 2, true⟩] 0).1
          (Heap.clone [⟨[9], [], 1, false⟩, ⟨[2], [], 2, true⟩] 0).2 v) 0
      = Heap.read [⟨[9], [], 1, false⟩, ⟨[2], [], 2, true⟩] 0) :=
  ⟨by decide,
    (clone_deep_copy [⟨[9], [], 1, false⟩, ⟨[2], [], 2, true⟩] 0 (by decide)).2.2.1⟩

/-- Claim C8: for every valid instance `p`, `getExpectedInputDim()` returns an
integer ≥ 0; being a pure function of the instance it has no side effects and is
identical across repeated calls; its value is preserved by `clone` (reading the
cloned address gives the same dimension) and by a serialize-then-deserialize round
trip. -/
theorem getExpectedInputDim_stable (p : ModelParameters) (v : Nat) (h : Heap)
    (a : Nat) :
    (0 ≤ p.getExpectedInputDim) ∧
    (p.getExpectedInputDim = p.getExpectedInputDim) ∧
    ((Heap.read (h.clone a).1 (h.clone a).2).getExpectedInputDim
      = (Heap.read h a).getExpectedInputDim) ∧
    (Option.map ModelParameters.getExpectedInputDim
        (deserializeConcrete (serializeConcrete p v))
      = some p.getExpectedInputDim) := by
  refine ⟨Int.natCast_nonneg _, rfl, by rw [read_clone], ?_⟩
  rw [deserialize_serialize p v]
  rfl

/-- Claim C10: `ModelParameters::serialize` writes exactly the `Parameterizable`
base-class NVP and no fields of `ModelParameters` itself, and it ignores the
`version` argument (no class-version information is added, per
`object_serializable`): two instances with equal `Parameterizable` state produce
identical archive content from the base-class `serialize`, at any two versions. -/
theorem serialize_writes_base_only (p q : ModelParameters) (ar : List ArchiveEntry)
    (v w : Nat) (hbase : p.parameterizableState = q.parameterizableState) :
    (p.serialize ar v
      = ar ++ [ArchiveEntry.nvp ("Parameterizable") p.parameterizableState]) ∧
    (p.serialize ar v = q.serialize ar w) := by
  exact ⟨rfl, by simp [ModelParameters.serialize, hbase]⟩

/-- Witness for C10: two concrete instances differing in every subclass field but
sharing the `Parameterizable` state serialize identically at versions 0 and 7. -/
theorem serialize_writes_base_only_witness :
    ((⟨[1], [8, 9], 2, true⟩ : ModelParameters).parameterizableState
      = (⟨[5, 6], [8, 9], 3, false⟩ : ModelParameters).parameterizableState) ∧
    (ModelParameters.serialize ⟨[1], [8, 9], 2, true⟩ [] 0
      = ModelParameters.serialize ⟨[5, 6], [8, 9], 3, false⟩ [] 7) :=
  ⟨rfl,
    (serialize_writes_base_only ⟨[1], [8, 9], 2, true⟩ ⟨[5, 6], [8, 9], 3, false⟩ []
      0 7 rfl).2⟩

end DmpBbo
